import Mathlib

/-!
Verification of the single-device-auth server's device-trust core:
fingerprint extraction (utils/deviceFingerprint.js), the login trust
evaluation (routes/auth.js POST /login), the device-change-request
lifecycle (routes/auth.js POST /request-device-change, routes/admin.js
approve/reject), and the User model's device registry (models/User.js).

Machine-level notes on fidelity:
* JS `a || b` on string-or-undefined values is modelled by `jsOrStr`
  (an absent or empty string falls through to the default).
* `similarity = (matches / total) * 100` is computed in IEEE doubles in
  the source; for `total = 10` and `matches : 0..10` the double result
  is exactly the integer `matches * 10` (checked for every value), so
  similarity is modelled as the natural number `matches * 10`.
* The SHA-256 digest is modelled as an uninterpreted parameter
  `hash : String → String`; every theorem about device ids holds for an
  arbitrary digest function.
* Dates are modelled as natural-number timestamps.
-/

namespace SingleDeviceAuth

/-- JS `a || b` for `a` a string-or-undefined value and `b` a string:
an absent or empty (falsy) `a` yields `b`. -/
def jsOrStr : Option String → String → String
  | some s, d => if s = "" then d else s
  | none, d => d

/-- The ten stable attribute keys compared by `compareDeviceFingerprints`
(the `stableKeys` array of utils/deviceFingerprint.js). -/
inductive StableKey where
  | userAgent
  | platform
  | language
  | languages
  | screenRes
  | colorDepth
  | pixelRatio
  | hardwareConcurrency
  | maxTouchPoints
  | timezone
deriving DecidableEq, Repr

/-- The `stableKeys` array, in source order. -/
def stableKeys : List StableKey :=
  [StableKey.userAgent, StableKey.platform, StableKey.language,
   StableKey.languages, StableKey.screenRes, StableKey.colorDepth,
   StableKey.pixelRatio, StableKey.hardwareConcurrency,
   StableKey.maxTouchPoints, StableKey.timezone]

/-- The `stableFingerprint` object built by `generateDeviceFingerprint`:
all ten stable attributes, always present, as strings. -/
structure StableFingerprint where
  userAgent : String
  platform : String
  language : String
  languages : String
  screenRes : String
  colorDepth : String
  pixelRatio : String
  hardwareConcurrency : String
  maxTouchPoints : String
  timezone : String
deriving DecidableEq, Repr

/-- JS property lookup on a stable-fingerprint object: every stable key
is present. -/
def StableFingerprint.attr (s : StableFingerprint) : StableKey → Option String
  | StableKey.userAgent => some s.userAgent
  | StableKey.platform => some s.platform
  | StableKey.language => some s.language
  | StableKey.languages => some s.languages
  | StableKey.screenRes => some s.screenRes
  | StableKey.colorDepth => some s.colorDepth
  | StableKey.pixelRatio => some (StableFingerprint.pixelRatio s)
  | StableKey.hardwareConcurrency => some s.hardwareConcurrency
  | StableKey.maxTouchPoints => some s.maxTouchPoints
  | StableKey.timezone => some s.timezone

/-- The `deviceInfo` subdocument of a registered device in the User
schema (models/User.js): only `userAgent`, `ipAddress` and `platform`
are stored. -/
structure DeviceInfo where
  userAgent : String
  ipAddress : String
  platform : String
deriving DecidableEq, Repr

/-- JS property lookup on a stored `deviceInfo` object: of the ten
stable keys only `userAgent` and `platform` exist; every other lookup
is `undefined` (`none`). -/
def DeviceInfo.attr (d : DeviceInfo) : StableKey → Option String
  | StableKey.userAgent => some d.userAgent
  | StableKey.platform => some d.platform
  | _ => none

/-- The request signals read by the fingerprint utilities: each header
(via `req.get`) is a string or `undefined`; `req.ip` may be undefined
with `req.connection.remoteAddress` as fallback. -/
structure ReqSignals where
  userAgent : Option String
  secChUaPlatform : Option String
  xPlatform : Option String
  acceptLanguage : Option String
  xLanguage : Option String
  xLanguages : Option String
  xScreenResolution : Option String
  xColorDepth : Option String
  xPixelRatio : Option String
  xHardwareConcurrency : Option String
  xMaxTouchPoints : Option String
  xTimezone : Option String
  xForwardedFor : Option String
  xRealIp : Option String
  reqIp : Option String
  remoteAddress : String
deriving DecidableEq, Repr

/-- The full fingerprint object (stable attributes plus the volatile
network attributes excluded from the hash). -/
structure Fingerprint where
  stable : StableFingerprint
  ip : String
  forwardedFor : Option String
  realIp : Option String
deriving DecidableEq, Repr

/-- The value returned by `generateDeviceFingerprint`. -/
structure FingerprintResult where
  deviceId : String
  fingerprint : Fingerprint
  stableFingerprint : StableFingerprint
deriving DecidableEq, Repr

/-- JSON string escaping for the characters that can occur inside the
string fields being serialized (backslash and double quote). -/
def jsonEscapeChar (c : Char) : String :=
  if c = '\\' then "\\\\" else if c = '"' then "\\\"" else String.singleton c

def jsonEscape (s : String) : String :=
  String.join (s.data.map jsonEscapeChar)

def jsonField (k v : String) : String :=
  "\"" ++ k ++ "\":\"" ++ jsonEscape v ++ "\""

/-- `JSON.stringify(stableFingerprint)`: the canonical serialization of
the stable attribute object, keys in declaration order. -/
def stringifyStable (s : StableFingerprint) : String :=
  "\x7b" ++ String.intercalate ","
    [jsonField "userAgent" s.userAgent,
     jsonField "platform" s.platform,
     jsonField "language" s.language,
     jsonField "languages" s.languages,
     jsonField "screenRes" s.screenRes,
     jsonField "colorDepth" s.colorDepth,
     jsonField "pixelRatio" (StableFingerprint.pixelRatio s),
     jsonField "hardwareConcurrency" s.hardwareConcurrency,
     jsonField "maxTouchPoints" s.maxTouchPoints,
     jsonField "timezone" s.timezone] ++ "\x7d"

/-- The stable attribute extraction of `generateDeviceFingerprint`:
each signal with its fallback chain and documented default. -/
def stableOf (req : ReqSignals) : StableFingerprint where
  userAgent := jsOrStr req.userAgent ""
  platform := jsOrStr req.secChUaPlatform (jsOrStr req.xPlatform "Unknown")
  language := jsOrStr req.acceptLanguage (jsOrStr req.xLanguage "en-US")
  languages := jsOrStr req.xLanguages (jsOrStr req.acceptLanguage "en-US")
  screenRes := jsOrStr req.xScreenResolution "unknown"
  colorDepth := jsOrStr req.xColorDepth "unknown"
  pixelRatio := jsOrStr req.xPixelRatio "1"
  hardwareConcurrency := jsOrStr req.xHardwareConcurrency "unknown"
  maxTouchPoints := jsOrStr req.xMaxTouchPoints "0"
  timezone := jsOrStr req.xTimezone "UTC"

/-- The digest input string: `userId ++ "-" ++ JSON.stringify(stable)`. -/
def digestInput (userId : String) (s : StableFingerprint) : String :=
  userId ++ "-" ++ stringifyStable s

/-- `generateDeviceFingerprint(req, userId)` with the SHA-256 digest
abstracted as `hash`. -/
def generateDeviceFingerprint (hash : String → String) (req : ReqSignals)
    (userId : String) : FingerprintResult :=
  let stable := stableOf req
  { deviceId := hash (digestInput userId stable)
    fingerprint :=
      { stable := stable
        ip := jsOrStr req.reqIp req.remoteAddress
        forwardedFor := req.xForwardedFor
        realIp := req.xRealIp }
    stableFingerprint := stable }

/-- The result object of `compareDeviceFingerprints`. `similarity`
holds the exact value of the source's `(matches / total) * 100` double
computation (an integer for every possible `matches`). -/
structure CompareResult where
  similarity : Nat
  matchCount : Nat
  total : Nat
  differences : List (StableKey × Option String × Option String)
  isSimilar : Bool
deriving DecidableEq, Repr

/-- `compareDeviceFingerprints(fingerprint1, fingerprint2)`: walks the
ten stable keys, counting matches (JS `===`, where two absent values
compare equal) and collecting a difference entry for each mismatch. -/
def compareDeviceFingerprints (f1 f2 : StableKey → Option String) : CompareResult :=
  let matchCount := stableKeys.countP (fun k => f1 k == f2 k)
  { similarity := matchCount * 10
    matchCount := matchCount
    total := stableKeys.length
    differences := stableKeys.filterMap
      (fun k => if f1 k == f2 k then none else some (k, f1 k, f2 k))
    isSimilar := decide (matchCount * 10 ≥ 80) }

/-- A registered device record in the User schema. -/
structure DeviceRecord where
  deviceId : String
  deviceInfo : Option DeviceInfo
  registeredAt : Nat
  lastUsed : Nat
deriving DecidableEq, Repr

/-- The result of `detectIPChange`: either the first sufficiently
similar registered device (with similarity and differences), or no
change detected. -/
inductive IPChangeResult where
  | change (similarDevice : DeviceRecord) (similarity : Nat)
      (differences : List (StableKey × Option String × Option String))
  | noChange
deriving DecidableEq, Repr

/-- `detectIPChange(currentFingerprint, registeredDevices)`: scans the
registered devices in order; the first whose stored `deviceInfo` is
present and compares similar (≥ 80%) is returned. -/
def detectIPChange (current : FingerprintResult) :
    List DeviceRecord → IPChangeResult
  | [] => IPChangeResult.noChange
  | d :: rest =>
    match d.deviceInfo with
    | some info =>
      let comparison :=
        compareDeviceFingerprints current.stableFingerprint.attr info.attr
      if comparison.isSimilar then
        IPChangeResult.change d comparison.similarity comparison.differences
      else detectIPChange current rest
    | none => detectIPChange current rest

/-- A user's role (models/User.js `role` enum). -/
inductive Role where
  | user
  | admin
deriving DecidableEq, Repr

/-- The user entity fields relevant to device trust (models/User.js). -/
structure User where
  id : String
  username : String
  email : String
  role : Role
  isActive : Bool
  registeredDevices : List DeviceRecord
  currentDeviceId : Option String
deriving DecidableEq, Repr

/-- `user.isAdmin()`. -/
def User.isAdmin (u : User) : Bool :=
  u.role == Role.admin

/-- `user.isDeviceRegistered(deviceId)`. -/
def User.isDeviceRegistered (u : User) (deviceId : String) : Bool :=
  u.registeredDevices.any (fun d => d.deviceId == deviceId)

/-- The `deviceInfo` object built from the request by
`registerDevice` (models/User.js). -/
def deviceInfoFromReq (req : ReqSignals) : DeviceInfo where
  userAgent := jsOrStr req.userAgent ""
  ipAddress := jsOrStr req.reqIp req.remoteAddress
  platform := jsOrStr req.secChUaPlatform (jsOrStr req.xPlatform "Unknown")

/-- `user.registerDevice(deviceId, req)`: pushes a new DeviceRecord and
reassigns `currentDeviceId` to the new device. -/
def User.registerDevice (u : User) (deviceId : String) (req : ReqSignals)
    (now : Nat) : User :=
  { u with
    registeredDevices := u.registeredDevices ++
      [{ deviceId := deviceId
         deviceInfo := some (deviceInfoFromReq req)
         registeredAt := now
         lastUsed := now }]
    currentDeviceId := some deviceId }

/-- `user.updateDeviceLastUsed(deviceId)`: refreshes `lastUsed` on the
first record with the given id (`find` returns the first match). -/
def updateFirstLastUsed (deviceId : String) (now : Nat) :
    List DeviceRecord → List DeviceRecord
  | [] => []
  | d :: rest =>
    if d.deviceId == deviceId then { d with lastUsed := now } :: rest
    else d :: updateFirstLastUsed deviceId now rest

def User.updateDeviceLastUsed (u : User) (deviceId : String) (now : Nat) : User :=
  { u with registeredDevices := updateFirstLastUsed deviceId now u.registeredDevices }

/-- The in-place mutation of the IP-rebind branch of POST /login:
the first similar registered record gets the new IP and a fresh
`lastUsed`. -/
def rebindFirstSimilar (current : FingerprintResult) (now : Nat) :
    List DeviceRecord → List DeviceRecord
  | [] => []
  | d :: rest =>
    match d.deviceInfo with
    | some info =>
      if (compareDeviceFingerprints current.stableFingerprint.attr info.attr).isSimilar then
        { d with
          deviceInfo := some { info with ipAddress := current.fingerprint.ip }
          lastUsed := now } :: rest
      else d :: rebindFirstSimilar current now rest
    | none => d :: rebindFirstSimilar current now rest

/-- `user.registeredDevices.find(d => d.deviceId === user.currentDeviceId)?.deviceInfo`:
the stored info of the user's current device, when any. -/
def currentDeviceInfoOf (u : User) : Option DeviceInfo :=
  match u.currentDeviceId with
  | some cid => (u.registeredDevices.find? (fun d => d.deviceId == cid)).bind
      (fun d => d.deviceInfo)
  | none => none

/-- The decision taken by POST /login once credentials have been
verified, as a tagged result. -/
inductive Decision where
  | loginOk (deviceId : String)
  | adminBypass (deviceId : String)
  | autoRegister (deviceId : String)
  | ipRebind (deviceId : String) (similarity : Nat)
  | needsReview (newDeviceId : String) (currentDeviceInfo : Option DeviceInfo)
deriving DecidableEq, Repr

/-- The device-trust evaluation of POST /login (routes/auth.js): the
branch structure after password verification, together with the user
state it persists.  `fp` is the fingerprint generated for the request. -/
def loginEvaluate (u : User) (fp : FingerprintResult) (req : ReqSignals)
    (now : Nat) : Decision × User :=
  let deviceId := fp.deviceId
  if u.isDeviceRegistered deviceId then
    (Decision.loginOk deviceId, u.updateDeviceLastUsed deviceId now)
  else if u.isAdmin then
    (Decision.adminBypass deviceId, u.registerDevice deviceId req now)
  else if u.registeredDevices.isEmpty then
    (Decision.autoRegister deviceId, u.registerDevice deviceId req now)
  else
    match detectIPChange fp u.registeredDevices with
    | IPChangeResult.change similarDevice similarity _ =>
      (Decision.ipRebind similarDevice.deviceId similarity,
       { u with
         registeredDevices := rebindFirstSimilar fp now u.registeredDevices
         currentDeviceId := some similarDevice.deviceId })
    | IPChangeResult.noChange =>
      (Decision.needsReview deviceId (currentDeviceInfoOf u), u)

/-- Status of a device change request
(models/DeviceChangeRequest.js `status` enum). -/
inductive Status where
  | pending
  | approved
  | rejected
deriving DecidableEq, Repr

/-- A DeviceChangeRequest document. -/
structure ChangeRequest where
  id : Nat
  userId : String
  username : String
  email : String
  currentDeviceId : String
  newDeviceId : String
  newDeviceInfo : DeviceInfo
  currentDeviceInfo : Option DeviceInfo
  status : Status
  requestedAt : Nat
  reviewedAt : Option Nat
  reviewedBy : Option String
  reason : String
  adminNotes : Option String
deriving DecidableEq, Repr

/-- The persistent stores the routes read and write. -/
structure Db where
  users : List User
  requests : List ChangeRequest
deriving DecidableEq, Repr

/-- `DeviceChangeRequest.findById(requestId)`. -/
def findRequest (db : Db) (rid : Nat) : Option ChangeRequest :=
  db.requests.find? (fun r => r.id == rid)

/-- `User.findById(userId)`. -/
def findUser (db : Db) (uid : String) : Option User :=
  db.users.find? (fun u => u.id == uid)

/-- `request.save()`: writes the updated document back to the store. -/
def saveRequest (db : Db) (r : ChangeRequest) : Db :=
  { db with requests := db.requests.map (fun q => if q.id == r.id then r else q) }

/-- `user.save()`: writes the updated user back to the store. -/
def saveUser (db : Db) (u : User) : Db :=
  { db with users := db.users.map (fun v => if v.id == u.id then u else v) }

/-- The outcome of an admin approve/reject call. -/
inductive AdminResult where
  | ok
  | notFound
  | alreadyProcessed
deriving DecidableEq, Repr

/-- The field updates the approve route writes on the request document. -/
def approvedVersion (request : ChangeRequest) (reviewerId : String)
    (adminNotes : Option String) (now : Nat) : ChangeRequest :=
  { request with
    status := Status.approved
    reviewedAt := some now
    reviewedBy := some reviewerId
    adminNotes := adminNotes }

/-- The registry mutation the approve route performs on the user: the
record matching `currentDeviceId` (when set) is filtered out, a
DeviceRecord built from the request's `newDeviceInfo`/`newDeviceId` is
pushed, and `currentDeviceId` is repointed to the new device. -/
def swapDevice (user : User) (request : ChangeRequest) (now : Nat) : User :=
  let user1 :=
    match user.currentDeviceId with
    | some cid => { user with
        registeredDevices :=
          user.registeredDevices.filter (fun d => !(d.deviceId == cid)) }
    | none => user
  { user1 with
    registeredDevices := user1.registeredDevices ++
      [{ deviceId := request.newDeviceId
         deviceInfo := some request.newDeviceInfo
         registeredAt := now
         lastUsed := now }]
    currentDeviceId := some request.newDeviceId }

/-- POST /requests/:requestId/approve (routes/admin.js): marks the
request approved, then evicts the user's current device and registers
the requested one. -/
def approveRoute (db : Db) (rid : Nat) (reviewerId : String)
    (adminNotes : Option String) (now : Nat) : AdminResult × Db :=
  match findRequest db rid with
  | none => (AdminResult.notFound, db)
  | some request =>
    if request.status ≠ Status.pending then (AdminResult.alreadyProcessed, db)
    else
      let db1 := saveRequest db (approvedVersion request reviewerId adminNotes now)
      match findUser db1 request.userId with
      | none => (AdminResult.ok, db1)
      | some user => (AdminResult.ok, saveUser db1 (swapDevice user request now))

/-- The field updates the reject route writes on the request document
(the stored reason survives unless a truthy replacement is supplied). -/
def rejectedVersion (request : ChangeRequest) (reviewerId : String)
    (adminNotes reason : Option String) (now : Nat) : ChangeRequest :=
  { request with
    status := Status.rejected
    reviewedAt := some now
    reviewedBy := some reviewerId
    adminNotes := adminNotes
    reason := jsOrStr reason request.reason }

/-- POST /requests/:requestId/reject (routes/admin.js): marks the
request rejected; the user document is never touched. -/
def rejectRoute (db : Db) (rid : Nat) (reviewerId : String)
    (adminNotes : Option String) (reason : Option String) (now : Nat) :
    AdminResult × Db :=
  match findRequest db rid with
  | none => (AdminResult.notFound, db)
  | some request =>
    if request.status ≠ Status.pending then (AdminResult.alreadyProcessed, db)
    else
      (AdminResult.ok, saveRequest db (rejectedVersion request reviewerId adminNotes reason now))

/-- `DeviceChangeRequest.findOne({user, newDeviceId, status: 'pending'})`
viewed as an existence check. -/
def pendingExists (requests : List ChangeRequest) (uid deviceId : String) : Bool :=
  requests.any (fun r =>
    r.userId == uid && r.newDeviceId == deviceId && r.status == Status.pending)

/-- The outcome of POST /request-device-change. -/
inductive CreateResult where
  | created (request : ChangeRequest)
  | deviceAlreadyRegistered
  | pendingAlreadyExists
deriving DecidableEq, Repr

/-- The DeviceChangeRequest document POST /request-device-change builds
(schema defaults: status pending, requestedAt now). -/
def newRequestDoc (user : User) (req : ReqSignals) (bodyReason : Option String)
    (newId : Nat) (now : Nat) (deviceId : String) : ChangeRequest where
  id := newId
  userId := user.id
  username := user.username
  email := user.email
  currentDeviceId := (user.currentDeviceId).getD "none"
  newDeviceId := deviceId
  newDeviceInfo :=
    { userAgent := jsOrStr req.userAgent ""
      ipAddress := jsOrStr req.reqIp req.remoteAddress
      platform := jsOrStr req.secChUaPlatform "Unknown" }
  currentDeviceInfo := currentDeviceInfoOf user
  status := Status.pending
  requestedAt := now
  reviewedAt := none
  reviewedBy := none
  reason := jsOrStr bodyReason "User requested device change"
  adminNotes := none

/-- POST /request-device-change (routes/auth.js, authenticated): creates
a pending change request for the current device unless the device is
registered or a pending request for it already exists.  `newId` is the
id the store assigns to the new document. -/
def requestDeviceChangeRoute (hash : String → String) (db : Db) (user : User)
    (req : ReqSignals) (bodyReason : Option String) (newId : Nat) (now : Nat) :
    CreateResult × Db :=
  if user.isDeviceRegistered ((generateDeviceFingerprint hash req user.id).deviceId) then
    (CreateResult.deviceAlreadyRegistered, db)
  else if pendingExists db.requests user.id
      ((generateDeviceFingerprint hash req user.id).deviceId) then
    (CreateResult.pendingAlreadyExists, db)
  else
    (CreateResult.created
      (newRequestDoc user req bodyReason newId now
        ((generateDeviceFingerprint hash req user.id).deviceId)),
     { db with requests := db.requests ++
        [newRequestDoc user req bodyReason newId now
          ((generateDeviceFingerprint hash req user.id).deviceId)] })

/-- The outcome of POST /register-device. -/
inductive RegisterResult where
  | ok
  | alreadyRegistered
deriving DecidableEq, Repr

/-- POST /register-device (routes/auth.js, authenticated): registers the
current device unless it is already registered. -/
def registerDeviceRoute (hash : String → String) (user : User)
    (req : ReqSignals) (now : Nat) : RegisterResult × User :=
  let deviceId := (generateDeviceFingerprint hash req user.id).deviceId
  if user.isDeviceRegistered deviceId then
    (RegisterResult.alreadyRegistered, user)
  else
    (RegisterResult.ok, user.registerDevice deviceId req now)

/-! Concrete fixtures used to exercise the definitions on explicit inputs. -/

/-- A bare request: every header absent. -/
def emptySignals : ReqSignals where
  userAgent := none
  secChUaPlatform := none
  xPlatform := none
  acceptLanguage := none
  xLanguage := none
  xLanguages := none
  xScreenResolution := none
  xColorDepth := none
  xPixelRatio := none
  xHardwareConcurrency := none
  xMaxTouchPoints := none
  xTimezone := none
  xForwardedFor := none
  xRealIp := none
  reqIp := none
  remoteAddress := "127.0.0.1"

/-- The stored info of the sample registered device `d1`. -/
def info1 : DeviceInfo where
  userAgent := "ua"
  ipAddress := "1.1.1.1"
  platform := "Linux"

def rec1 : DeviceRecord where
  deviceId := "d1"
  deviceInfo := some info1
  registeredAt := 0
  lastUsed := 0

/-- A sample fingerprint for an unregistered device id `d2`. -/
def fpNew : FingerprintResult where
  deviceId := "d2"
  fingerprint :=
    { stable := stableOf emptySignals
      ip := "2.2.2.2"
      forwardedFor := none
      realIp := none }
  stableFingerprint := stableOf emptySignals

def adminUser0 : User where
  id := "a1"
  username := "root"
  email := "admin@example.com"
  role := Role.admin
  isActive := true
  registeredDevices := []
  currentDeviceId := none

def plainUser0 : User where
  id := "u1"
  username := "alice"
  email := "alice@example.com"
  role := Role.user
  isActive := true
  registeredDevices := []
  currentDeviceId := none

/-- A non-admin user bound to device `d1`. -/
def user1 : User where
  id := "u1"
  username := "alice"
  email := "alice@example.com"
  role := Role.user
  isActive := true
  registeredDevices := [rec1]
  currentDeviceId := some "d1"

/-! Theorems. -/

/-- Membership in the stable-key list: the ten keys are exactly the
`StableKey` constructors. -/
theorem mem_stableKeys (k : StableKey) : k ∈ stableKeys := by
  cases k <;> simp [stableKeys]

/-- Claim C10: every device registration via `registerDevice` — the
routine used by the first-login bootstrap, the admin bypass and the
explicit POST /register-device action — appends exactly one DeviceRecord,
removes none (every previously registered record survives), and always
reassigns `currentDeviceId` to the newly registered device id. -/
theorem registerDevice_appends_one_and_repoints (u : User) (deviceId : String)
    (req : ReqSignals) (now : Nat) :
    (u.registerDevice deviceId req now).registeredDevices =
      u.registeredDevices ++
        [{ deviceId := deviceId
           deviceInfo := some (deviceInfoFromReq req)
           registeredAt := now
           lastUsed := now }] ∧
    (u.registerDevice deviceId req now).currentDeviceId = some deviceId ∧
    (u.registerDevice deviceId req now).registeredDevices.length =
      u.registeredDevices.length + 1 ∧
    ∀ d ∈ u.registeredDevices, d ∈ (u.registerDevice deviceId req now).registeredDevices := by
  refine ⟨rfl, rfl, by simp [User.registerDevice], ?_⟩
  intro d hd
  simp [User.registerDevice]
  exact Or.inl hd

/-- A request with the volatile network attributes (`req.ip`,
`remoteAddress`, `X-Forwarded-For`, `X-Real-IP`) blanked out: two
requests are equal after stripping exactly when they agree on every
signal the stable fingerprint reads. -/
def stripVolatile (r : ReqSignals) : ReqSignals :=
  { r with xForwardedFor := none, xRealIp := none, reqIp := none, remoteAddress := "" }

/-- Claim C7: for a fixed owner and fixed stable attributes the
extractor is deterministic — the deviceId is exactly the digest of the
owner id and the canonical serialization of the stable attributes, so
two calls that differ only in the volatile network attributes yield
identical deviceIds. -/
theorem fingerprint_deterministic_ip_invariant (hash : String → String)
    (uid : String) (r1 r2 : ReqSignals)
    (h : stripVolatile r1 = stripVolatile r2) :
    (generateDeviceFingerprint hash r1 uid).deviceId =
      hash (digestInput uid (stableOf r1)) ∧
    (generateDeviceFingerprint hash r1 uid).deviceId =
      (generateDeviceFingerprint hash r2 uid).deviceId := by
  have hs : stableOf r1 = stableOf r2 := by
    have h1 : stableOf (stripVolatile r1) = stableOf (stripVolatile r2) := by rw [h]
    exact h1
  exact ⟨rfl, by simp [generateDeviceFingerprint, hs]⟩

/-- Witness for C7: the same bare request seen from a different peer
address, a different `req.ip` and different forwarding headers keeps
the same deviceId. -/
theorem fingerprint_deterministic_ip_invariant_witness :
    (generateDeviceFingerprint (fun s => s) emptySignals "u1").deviceId =
      (fun s => s) (digestInput "u1" (stableOf emptySignals)) ∧
    (generateDeviceFingerprint (fun s => s) emptySignals "u1").deviceId =
      (generateDeviceFingerprint (fun s => s)
        { emptySignals with
          reqIp := some "9.9.9.9"
          remoteAddress := "6.6.6.6"
          xForwardedFor := some "8.8.8.8"
          xRealIp := some "7.7.7.7" } "u1").deviceId :=
  fingerprint_deterministic_ip_invariant (fun s => s) "u1" emptySignals
    { emptySignals with
      reqIp := some "9.9.9.9"
      remoteAddress := "6.6.6.6"
      xForwardedFor := some "8.8.8.8"
      xRealIp := some "7.7.7.7" }
    (by decide)

/-- Claim C1: with an unregistered fingerprint the POST /login branches
are evaluated in the order admin-bypass, empty-registry bootstrap,
IP-rebind, NEEDS_REVIEW: an admin always gets ADMIN_BYPASS (in
particular an admin with zero registered devices — never AUTO_REGISTER),
a non-admin with an empty registry gets AUTO_REGISTER, and a non-admin
with a non-empty registry gets IP_REBIND exactly when `detectIPChange`
finds a similar device and NEEDS_REVIEW otherwise. -/
theorem login_branch_order (u : User) (fp : FingerprintResult)
    (req : ReqSignals) (now : Nat)
    (hunreg : u.isDeviceRegistered fp.deviceId = false) :
    (u.role = Role.admin →
      (loginEvaluate u fp req now).1 = Decision.adminBypass fp.deviceId ∧
      (loginEvaluate u fp req now).1 ≠ Decision.autoRegister fp.deviceId) ∧
    (u.role = Role.user → u.registeredDevices = [] →
      (loginEvaluate u fp req now).1 = Decision.autoRegister fp.deviceId) ∧
    (u.role = Role.user → u.registeredDevices ≠ [] →
      ∀ d sim diffs,
        detectIPChange fp u.registeredDevices = IPChangeResult.change d sim diffs →
        (loginEvaluate u fp req now).1 = Decision.ipRebind d.deviceId sim) ∧
    (u.role = Role.user → u.registeredDevices ≠ [] →
      detectIPChange fp u.registeredDevices = IPChangeResult.noChange →
      (loginEvaluate u fp req now).1 =
        Decision.needsReview fp.deviceId (currentDeviceInfoOf u)) := by
  refine ⟨fun hrole => ?_, fun hrole hemp => ?_, fun hrole hne d sim diffs hdet => ?_,
    fun hrole hne hdet => ?_⟩
  · constructor <;> simp [loginEvaluate, hunreg, User.isAdmin, hrole]
  · simp [loginEvaluate, hunreg, User.isAdmin, hrole, hemp]
  · simp [loginEvaluate, hunreg, User.isAdmin, hrole,
      List.isEmpty_iff.not.mpr hne, hdet]
  · simp [loginEvaluate, hunreg, User.isAdmin, hrole,
      List.isEmpty_iff.not.mpr hne, hdet]

/-- Witness for C1: the admin with zero devices gets ADMIN_BYPASS and
not AUTO_REGISTER, the plain user with zero devices gets AUTO_REGISTER,
and the plain user bound to `d1` falls through to NEEDS_REVIEW for the
unregistered fingerprint `d2`. -/
theorem login_branch_order_witness :
    (loginEvaluate adminUser0 fpNew emptySignals 3).1 = Decision.adminBypass "d2" ∧
    (loginEvaluate adminUser0 fpNew emptySignals 3).1 ≠ Decision.autoRegister "d2" ∧
    (loginEvaluate plainUser0 fpNew emptySignals 3).1 = Decision.autoRegister "d2" ∧
    (loginEvaluate user1 fpNew emptySignals 3).1 =
      Decision.needsReview "d2" (currentDeviceInfoOf user1) :=
  ⟨((login_branch_order adminUser0 fpNew emptySignals 3 (by decide)).1 rfl).1,
   ((login_branch_order adminUser0 fpNew emptySignals 3 (by decide)).1 rfl).2,
   (login_branch_order plainUser0 fpNew emptySignals 3 (by decide)).2.1 rfl rfl,
   (login_branch_order user1 fpNew emptySignals 3 (by decide)).2.2.2 rfl
     (by decide) (by decide)⟩

/-- Complementary counts over a list sum to its length. -/
theorem countP_add_countP_not {α : Type} (p : α → Bool) (l : List α) :
    l.countP p + l.countP (fun x => !(p x)) = l.length := by
  induction l with
  | nil => rfl
  | cons x rest ih =>
    by_cases h : p x = true
    · simp only [List.countP_cons, h, Bool.not_true, if_true]
      simp only [Bool.false_eq_true, if_false, add_zero, List.length_cons]
      omega
    · have hf : p x = false := by simpa using h
      simp only [List.countP_cons, hf, Bool.not_false, if_true]
      simp only [Bool.false_eq_true, if_false, add_zero, List.length_cons]
      omega

/-- The difference list collects one entry per mismatched key. -/
theorem length_diffs_eq_countP (a b : StableKey → Option String) (l : List StableKey) :
    (l.filterMap (fun k => if a k == b k then none else some (k, a k, b k))).length =
      l.countP (fun k => !(a k == b k)) := by
  induction l with
  | nil => rfl
  | cons k rest ih =>
    rw [List.filterMap_cons, List.countP_cons]
    by_cases h : (a k == b k) = true
    · rw [if_pos h, h]
      simp only [Bool.not_true, Bool.false_eq_true, if_false, add_zero]
      exact ih
    · have hf : (a k == b k) = false := by simpa using h
      rw [if_neg h, hf]
      simp only [Bool.not_false, if_true, List.length_cons]
      omega

/-- Swapping the two compared maps swaps the two values in each
difference entry. -/
theorem diffs_swap (a b : StableKey → Option String) (l : List StableKey) :
    l.filterMap (fun k => if a k == b k then none else some (k, a k, b k)) =
      (l.filterMap (fun k => if b k == a k then none else some (k, b k, a k))).map
        (fun x => (x.1, x.2.2, x.2.1)) := by
  induction l with
  | nil => rfl
  | cons k rest ih =>
    rw [List.filterMap_cons, List.filterMap_cons]
    by_cases h : a k = b k
    · have h1 : (a k == b k) = true := by simpa using h
      have h2 : (b k == a k) = true := by simpa using h.symm
      rw [if_pos h1, if_pos h2]
      exact ih
    · have h1 : ¬ ((a k == b k) = true) := by simpa using h
      have h2 : ¬ ((b k == a k) = true) := by
        simpa using (fun hba => h hba.symm)
      rw [if_neg h1, if_neg h2, List.map_cons]
      exact congrArg _ ih

/-- Match counting is symmetric in the two maps. -/
theorem countP_matches_symm (a b : StableKey → Option String) (l : List StableKey) :
    l.countP (fun k => a k == b k) = l.countP (fun k => b k == a k) := by
  refine List.countP_congr (fun k _ => ?_)
  simp only [beq_iff_eq]
  exact eq_comm

/-- Claim C4: `compareDeviceFingerprints` examines exactly the ten
stable keys: total is 10, similarity is matches/total × 100, the
difference list holds exactly the mismatched keys with both values, a
pair is similar iff similarity ≥ 80 (so 2 mismatches give similarity 80
and similar, 3 mismatches give 70 and not similar), and the result is
symmetric in its arguments up to swapping the values in each
difference entry. -/
theorem compareDeviceFingerprints_contract (a b : StableKey → Option String) :
    (compareDeviceFingerprints a b).total = 10 ∧
    ((compareDeviceFingerprints a b).similarity : ℚ) =
      ((compareDeviceFingerprints a b).matchCount : ℚ) /
        ((compareDeviceFingerprints a b).total : ℚ) * 100 ∧
    (∀ k : StableKey,
      (k, a k, b k) ∈ (compareDeviceFingerprints a b).differences ↔ a k ≠ b k) ∧
    ((compareDeviceFingerprints a b).isSimilar = true ↔
      80 ≤ (compareDeviceFingerprints a b).similarity) ∧
    ((compareDeviceFingerprints a b).differences.length = 2 →
      (compareDeviceFingerprints a b).similarity = 80 ∧
      (compareDeviceFingerprints a b).isSimilar = true) ∧
    ((compareDeviceFingerprints a b).differences.length = 3 →
      (compareDeviceFingerprints a b).similarity = 70 ∧
      (compareDeviceFingerprints a b).isSimilar = false) ∧
    (compareDeviceFingerprints a b).matchCount =
      (compareDeviceFingerprints b a).matchCount ∧
    (compareDeviceFingerprints a b).similarity =
      (compareDeviceFingerprints b a).similarity ∧
    (compareDeviceFingerprints a b).isSimilar =
      (compareDeviceFingerprints b a).isSimilar ∧
    (compareDeviceFingerprints a b).differences =
      (compareDeviceFingerprints b a).differences.map (fun x => (x.1, x.2.2, x.2.1)) := by
  have hsum : stableKeys.countP (fun k => a k == b k) +
      stableKeys.countP (fun k => !(a k == b k)) = 10 :=
    countP_add_countP_not (fun k => a k == b k) stableKeys
  have hdiffs : (compareDeviceFingerprints a b).differences.length =
      stableKeys.countP (fun k => !(a k == b k)) :=
    length_diffs_eq_countP a b stableKeys
  have hmc : (compareDeviceFingerprints a b).matchCount =
      stableKeys.countP (fun k => a k == b k) := rfl
  have hsim : (compareDeviceFingerprints a b).similarity =
      (compareDeviceFingerprints a b).matchCount * 10 := rfl
  have htot : (compareDeviceFingerprints a b).total = 10 := rfl
  have hiss : (compareDeviceFingerprints a b).isSimilar =
      decide ((compareDeviceFingerprints a b).matchCount * 10 ≥ 80) := rfl
  refine ⟨rfl, ?_, ?_, ?_, ?_, ?_, ?_, ?_, ?_, ?_⟩
  · rw [hsim, htot]
    push_cast
    rw [div_mul_eq_mul_div, eq_div_iff (by norm_num)]
    ring
  · intro k
    constructor
    · intro hmem
      rcases List.mem_filterMap.mp hmem with ⟨k', _, hf⟩
      by_cases h : a k' = b k'
      · simp [h] at hf
      · simp [h] at hf
        intro hab
        exact h (hf.1 ▸ hab)
    · intro hab
      refine List.mem_filterMap.mpr ⟨k, mem_stableKeys k, ?_⟩
      simp [hab]
  · rw [hiss, hsim]
    exact decide_eq_true_iff
  · intro h2
    rw [hdiffs] at h2
    have hm8 : (compareDeviceFingerprints a b).matchCount = 8 := by
      rw [hmc]; omega
    refine ⟨by rw [hsim, hm8], by rw [hiss, hm8]; rfl⟩
  · intro h3
    rw [hdiffs] at h3
    have hm7 : (compareDeviceFingerprints a b).matchCount = 7 := by
      rw [hmc]; omega
    refine ⟨by rw [hsim, hm7], by rw [hiss, hm7]; rfl⟩
  · exact countP_matches_symm a b stableKeys
  · show stableKeys.countP (fun k => a k == b k) * 10 =
      stableKeys.countP (fun k => b k == a k) * 10
    rw [countP_matches_symm a b stableKeys]
  · show decide (stableKeys.countP (fun k => a k == b k) * 10 ≥ 80) =
      decide (stableKeys.countP (fun k => b k == a k) * 10 ≥ 80)
    rw [countP_matches_symm a b stableKeys]
  · exact diffs_swap a b stableKeys

/-- A stable fingerprint differing from `stableOf emptySignals` in
exactly two keys. -/
def stableDiff2 : StableFingerprint :=
  { stableOf emptySignals with userAgent := "other", platform := "Mac" }

/-- A stable fingerprint differing from `stableOf emptySignals` in
exactly three keys. -/
def stableDiff3 : StableFingerprint :=
  { stableDiff2 with timezone := "UTC+2" }

/-- Witness for C4: two concrete vectors differing in exactly 2 of the
10 keys score 80 and are similar; differing in 3 keys scores 70 and is
not similar. -/
theorem compareDeviceFingerprints_contract_witness :
    ((compareDeviceFingerprints (stableOf emptySignals).attr stableDiff2.attr).similarity = 80 ∧
      (compareDeviceFingerprints (stableOf emptySignals).attr stableDiff2.attr).isSimilar = true) ∧
    ((compareDeviceFingerprints (stableOf emptySignals).attr stableDiff3.attr).similarity = 70 ∧
      (compareDeviceFingerprints (stableOf emptySignals).attr stableDiff3.attr).isSimilar = false) :=
  ⟨(compareDeviceFingerprints_contract (stableOf emptySignals).attr
      stableDiff2.attr).2.2.2.2.1 (by decide),
   (compareDeviceFingerprints_contract (stableOf emptySignals).attr
      stableDiff3.attr).2.2.2.2.2.1 (by decide)⟩

/-- The stable attributes of the registered physical device `d1` as
seen on a later request: identical `userAgent` and `platform` to the
stored `info1`, every other attribute at its default. -/
def stableSame : StableFingerprint :=
  { stableOf emptySignals with userAgent := "ua", platform := "Linux" }

/-- The fingerprint of the same physical device `d1` returning from a
new IP address: the extractor derives a fresh deviceId `d2` because the
stored record only kept 3 of the 10 attributes. -/
def fpSameDevice : FingerprintResult where
  deviceId := "d2"
  fingerprint :=
    { stable := stableSame
      ip := "3.3.3.3"
      forwardedFor := none
      realIp := none }
  stableFingerprint := stableSame

/-- Claim C3 (code bug): the stored `deviceInfo` of a DeviceRecord has
only the keys `userAgent`, `ipAddress` and `platform`, but
`compareDeviceFingerprints` checks all ten stable keys against it, so
at most 2 of 10 keys can ever match: similarity never exceeds 20%, the
80% threshold is unreachable, and the IP-rebind branch is dead.  At the
spec's own scenario — the registered device `d1` returning with
identical stable attributes from a new IP — the code computes
similarity 20, detects no IP change, and answers NEEDS_REVIEW with the
user state unchanged instead of the specified IP_REBIND. -/
theorem ip_rebind_branch_unreachable :
    (∀ (s : StableFingerprint) (i : DeviceInfo),
      (compareDeviceFingerprints s.attr i.attr).similarity ≤ 20 ∧
      (compareDeviceFingerprints s.attr i.attr).isSimilar = false) ∧
    (compareDeviceFingerprints fpSameDevice.stableFingerprint.attr info1.attr).similarity = 20 ∧
    detectIPChange fpSameDevice user1.registeredDevices = IPChangeResult.noChange ∧
    (loginEvaluate user1 fpSameDevice emptySignals 7).1 =
      Decision.needsReview "d2" (some info1) ∧
    (loginEvaluate user1 fpSameDevice emptySignals 7).2 = user1 := by
  refine ⟨?_, by decide, by decide, by decide, by decide⟩
  intro s i
  by_cases h1 : s.userAgent = i.userAgent <;> by_cases h2 : s.platform = i.platform <;>
    simp [compareDeviceFingerprints, stableKeys, List.countP_cons,
      StableFingerprint.attr, DeviceInfo.attr, h1, h2]

/-- `find?` after an id-preserving in-place update: mapping the update
over the store keeps the updated document the first match of the
original lookup. -/
theorem find?_map_update {α : Type} (p : α → Bool) (g : α → α) (l : List α)
    (a : α) (h : l.find? p = some a) (hg : ∀ x, p x = false → g x = x)
    (hga : p (g a) = true) : (l.map g).find? p = some (g a) := by
  induction l with
  | nil => simp at h
  | cons x xs ih =>
    rw [List.map_cons]
    by_cases hx : p x = true
    · rw [List.find?_cons_of_pos _ hx] at h
      have hax : x = a := by injection h
      subst hax
      exact List.find?_cons_of_pos _ hga
    · have hxf : p x = false := by simpa using hx
      rw [List.find?_cons_of_neg _ hx] at h
      rw [hg x hxf, List.find?_cons_of_neg _ hx]
      exact ih h

/-- The stored info of the candidate new device `d2`. -/
def info2 : DeviceInfo where
  userAgent := "ua2"
  ipAddress := "2.2.2.2"
  platform := "Mac"

/-- A pending change request of `u1`: current device `d1`, new device `d2`. -/
def pendingReq1 : ChangeRequest where
  id := 1
  userId := "u1"
  username := "alice"
  email := "alice@example.com"
  currentDeviceId := "d1"
  newDeviceId := "d2"
  newDeviceInfo := info2
  currentDeviceInfo := some info1
  status := Status.pending
  requestedAt := 2
  reviewedAt := none
  reviewedBy := none
  reason := "Switching to new laptop"
  adminNotes := none

/-- `pendingReq1` after approval. -/
def approvedReq1 : ChangeRequest :=
  { pendingReq1 with
    status := Status.approved
    reviewedAt := some 3
    reviewedBy := some "a1" }

def dbPending : Db where
  users := [user1]
  requests := [pendingReq1]

def dbTerminal : Db where
  users := [user1]
  requests := [approvedReq1]

/-- Claim C6: a request whose status is terminal (approved or rejected)
is immutable — a further approve or reject call answers
"already processed" and leaves the whole store, hence every field of
the request, unchanged. -/
theorem terminal_request_immutable (db : Db) (rid : Nat) (reviewer : String)
    (notes reason : Option String) (now : Nat) (request : ChangeRequest)
    (hreq : findRequest db rid = some request)
    (hterm : request.status = Status.approved ∨ request.status = Status.rejected) :
    approveRoute db rid reviewer notes now = (AdminResult.alreadyProcessed, db) ∧
    rejectRoute db rid reviewer notes reason now = (AdminResult.alreadyProcessed, db) := by
  have hne : request.status ≠ Status.pending := by
    rcases hterm with h | h <;> rw [h] <;> intro hc <;> cases hc
  constructor
  · show (match findRequest db rid with
      | none => (AdminResult.notFound, db)
      | some request =>
        if request.status ≠ Status.pending then (AdminResult.alreadyProcessed, db)
        else _) = _
    rw [hreq]
    exact if_pos hne
  · show (match findRequest db rid with
      | none => (AdminResult.notFound, db)
      | some request =>
        if request.status ≠ Status.pending then (AdminResult.alreadyProcessed, db)
        else _) = _
    rw [hreq]
    exact if_pos hne

/-- Witness for C6: re-processing the already-approved request answers
"already processed" twice and leaves the store untouched. -/
theorem terminal_request_immutable_witness :
    approveRoute dbTerminal 1 "a1" none 9 = (AdminResult.alreadyProcessed, dbTerminal) ∧
    rejectRoute dbTerminal 1 "a1" none none 9 = (AdminResult.alreadyProcessed, dbTerminal) :=
  terminal_request_immutable dbTerminal 1 "a1" none none 9 approvedReq1
    (by decide) (Or.inl rfl)

/-- Claim C8: rejecting a pending request marks it rejected with
reviewedAt, reviewedBy and adminNotes set, overwrites the stored reason
only when a (nonempty) replacement is supplied, and never touches any
user document: the registry and currentDeviceId of every user are
identical before and after. -/
theorem reject_no_registry_effect (db : Db) (rid : Nat) (reviewer : String)
    (notes reason : Option String) (now : Nat) (request : ChangeRequest)
    (hreq : findRequest db rid = some request)
    (hpend : request.status = Status.pending) :
    (rejectRoute db rid reviewer notes reason now).1 = AdminResult.ok ∧
    (rejectRoute db rid reviewer notes reason now).2.users = db.users ∧
    ∃ request1,
      findRequest (rejectRoute db rid reviewer notes reason now).2 rid = some request1 ∧
      request1.status = Status.rejected ∧
      request1.reviewedAt = some now ∧
      request1.reviewedBy = some reviewer ∧
      request1.adminNotes = notes ∧
      (reason = none → request1.reason = request.reason) ∧
      (∀ s, reason = some s → s ≠ "" → request1.reason = s) ∧
      request1.newDeviceId = request.newDeviceId ∧
      request1.userId = request.userId := by
  have hnn : ¬ (request.status ≠ Status.pending) := not_not_intro hpend
  have hroute : rejectRoute db rid reviewer notes reason now =
      (AdminResult.ok, saveRequest db (rejectedVersion request reviewer notes reason now)) := by
    show (match findRequest db rid with
      | none => (AdminResult.notFound, db)
      | some request =>
        if request.status ≠ Status.pending then (AdminResult.alreadyProcessed, db)
        else (AdminResult.ok,
          saveRequest db (rejectedVersion request reviewer notes reason now))) = _
    rw [hreq]
    exact if_neg hnn
  have hreq' : db.requests.find? (fun r => r.id == rid) = some request := hreq
  have hid0 := List.find?_some hreq'
  have hid : (request.id == rid) = true := by simpa using hid0
  have hidq : request.id = rid := by simpa using hid
  have hcond : (request.id == (rejectedVersion request reviewer notes reason now).id) = true := by
    simp [rejectedVersion]
  have hgr : (if request.id == (rejectedVersion request reviewer notes reason now).id
      then rejectedVersion request reviewer notes reason now else request) =
      rejectedVersion request reviewer notes reason now := if_pos hcond
  have hfind : findRequest
      (saveRequest db (rejectedVersion request reviewer notes reason now)) rid =
      some (rejectedVersion request reviewer notes reason now) := by
    have hg := find?_map_update (fun r => r.id == rid)
      (fun q => if q.id == (rejectedVersion request reviewer notes reason now).id
        then rejectedVersion request reviewer notes reason now else q)
      db.requests request hreq'
      (fun x hx => if_neg (by
        intro hxe
        have hx1 : x.id = (rejectedVersion request reviewer notes reason now).id := by
          simpa using hxe
        have hx2 : (x.id == rid) = true := by
          simp [hx1, rejectedVersion, hidq]
        have hx' : (x.id == rid) = false := hx
        rw [hx'] at hx2
        cases hx2))
      (by
        show ((if request.id == (rejectedVersion request reviewer notes reason now).id
            then rejectedVersion request reviewer notes reason now else request).id == rid) = true
        rw [hgr]
        simp [rejectedVersion, hidq])
    have hg' : (db.requests.map
        (fun q => if q.id == (rejectedVersion request reviewer notes reason now).id
          then rejectedVersion request reviewer notes reason now else q)).find?
        (fun r => r.id == rid) =
        some (if request.id == (rejectedVersion request reviewer notes reason now).id
          then rejectedVersion request reviewer notes reason now else request) := hg
    rw [hgr] at hg'
    exact hg'
  refine ⟨by rw [hroute], by rw [hroute]; rfl,
    rejectedVersion request reviewer notes reason now,
    by rw [hroute]; exact hfind, rfl, rfl, rfl, rfl, ?_, ?_, rfl, rfl⟩
  · intro hnone
    show jsOrStr reason request.reason = request.reason
    rw [hnone]
    rfl
  · intro s hs hne
    show jsOrStr reason request.reason = s
    rw [hs]
    exact if_neg hne

/-- Witness for C8: rejecting the pending request of `u1` succeeds,
stores the review fields, keeps the user list identical and overwrites
the reason with the supplied one. -/
theorem reject_no_registry_effect_witness :
    (rejectRoute dbPending 1 "a1" (some "not you") (some "fraud") 9).1 = AdminResult.ok ∧
    (rejectRoute dbPending 1 "a1" (some "not you") (some "fraud") 9).2.users = dbPending.users ∧
    ∃ request1,
      findRequest (rejectRoute dbPending 1 "a1" (some "not you") (some "fraud") 9).2 1 =
        some request1 ∧
      request1.status = Status.rejected ∧
      request1.reviewedAt = some 9 ∧
      request1.reviewedBy = some "a1" ∧
      request1.adminNotes = some "not you" ∧
      ((some "fraud" : Option String) = none → request1.reason = pendingReq1.reason) ∧
      (∀ s, (some "fraud" : Option String) = some s → s ≠ "" → request1.reason = s) ∧
      request1.newDeviceId = pendingReq1.newDeviceId ∧
      request1.userId = pendingReq1.userId :=
  reject_no_registry_effect dbPending 1 "a1" (some "not you") (some "fraud") 9
    pendingReq1 (by decide) rfl

/-- Saving an updated request document with the id of the request a
lookup finds makes the updated document the lookup's result. -/
theorem findRequest_saveRequest (db : Db) (rid : Nat) (request r1 : ChangeRequest)
    (hreq : findRequest db rid = some request) (hid : r1.id = request.id) :
    findRequest (saveRequest db r1) rid = some r1 := by
  have hreq' : db.requests.find? (fun r => r.id == rid) = some request := hreq
  have hp := List.find?_some hreq'
  have hpq : request.id = rid := by simpa using hp
  have hcond : (request.id == r1.id) = true := by simp [hid]
  have hgr : (if request.id == r1.id then r1 else request) = r1 := if_pos hcond
  have hg := find?_map_update (fun r => r.id == rid)
    (fun q => if q.id == r1.id then r1 else q) db.requests request hreq'
    (fun x hx => if_neg (by
      intro hxe
      have hx1 : x.id = r1.id := by simpa using hxe
      have hx2 : (x.id == rid) = true := by simp [hx1, hid, hpq]
      have hx' : (x.id == rid) = false := hx
      rw [hx'] at hx2
      cases hx2))
    (by
      show ((if request.id == r1.id then r1 else request).id == rid) = true
      rw [hgr]
      simp [hid, hpq])
  have hg' : (db.requests.map (fun q => if q.id == r1.id then r1 else q)).find?
      (fun r => r.id == rid) = some (if request.id == r1.id then r1 else request) := hg
  rw [hgr] at hg'
  exact hg'

/-- Saving an updated user document with the id of the user a lookup
finds makes the updated document the lookup's result. -/
theorem findUser_saveUser (db : Db) (uid : String) (user u1 : User)
    (huser : findUser db uid = some user) (hid : u1.id = user.id) :
    findUser (saveUser db u1) uid = some u1 := by
  have huser' : db.users.find? (fun v => v.id == uid) = some user := huser
  have hp := List.find?_some huser'
  have hpq : user.id = uid := by simpa using hp
  have hcond : (user.id == u1.id) = true := by simp [hid]
  have hgr : (if user.id == u1.id then u1 else user) = u1 := if_pos hcond
  have hg := find?_map_update (fun v => v.id == uid)
    (fun v => if v.id == u1.id then u1 else v) db.users user huser'
    (fun x hx => if_neg (by
      intro hxe
      have hx1 : x.id = u1.id := by simpa using hxe
      have hx2 : (x.id == uid) = true := by simp [hx1, hid, hpq]
      have hx' : (x.id == uid) = false := hx
      rw [hx'] at hx2
      cases hx2))
    (by
      show ((if user.id == u1.id then u1 else user).id == uid) = true
      rw [hgr]
      simp [hid, hpq])
  have hg' : (db.users.map (fun v => if v.id == u1.id then u1 else v)).find?
      (fun v => v.id == uid) = some (if user.id == u1.id then u1 else user) := hg
  rw [hgr] at hg'
  exact hg'

/-- Claim C2: approving a pending request of user U — current device A,
requested (distinct) new device B — marks the request approved with
reviewedAt and reviewedBy set, evicts the record with deviceId A from
U's registry, appends exactly one DeviceRecord built from the request's
newDeviceInfo/newDeviceId, and repoints currentDeviceId to B; the
resulting registry contains B but no record with deviceId A. -/
theorem approve_swaps_device (db : Db) (rid : Nat) (reviewer : String)
    (notes : Option String) (now : Nat) (request : ChangeRequest)
    (user : User) (A : String)
    (hreq : findRequest db rid = some request)
    (hpend : request.status = Status.pending)
    (huser : findUser db request.userId = some user)
    (hcur : user.currentDeviceId = some A)
    (hAB : A ≠ request.newDeviceId) :
    (approveRoute db rid reviewer notes now).1 = AdminResult.ok ∧
    findRequest (approveRoute db rid reviewer notes now).2 rid =
      some (approvedVersion request reviewer notes now) ∧
    (approvedVersion request reviewer notes now).status = Status.approved ∧
    (approvedVersion request reviewer notes now).reviewedAt = some now ∧
    (approvedVersion request reviewer notes now).reviewedBy = some reviewer ∧
    findUser (approveRoute db rid reviewer notes now).2 user.id =
      some (swapDevice user request now) ∧
    (swapDevice user request now).registeredDevices =
      user.registeredDevices.filter (fun d => !(d.deviceId == A)) ++
        [{ deviceId := request.newDeviceId
           deviceInfo := some request.newDeviceInfo
           registeredAt := now
           lastUsed := now }] ∧
    (swapDevice user request now).currentDeviceId = some request.newDeviceId ∧
    (∃ d ∈ (swapDevice user request now).registeredDevices,
      d.deviceId = request.newDeviceId) ∧
    (∀ d ∈ (swapDevice user request now).registeredDevices, d.deviceId ≠ A) := by
  have hnn : ¬ (request.status ≠ Status.pending) := not_not_intro hpend
  have huser1 : findUser (saveRequest db (approvedVersion request reviewer notes now))
      request.userId = some user := huser
  have hroute : approveRoute db rid reviewer notes now =
      (AdminResult.ok,
        saveUser (saveRequest db (approvedVersion request reviewer notes now))
          (swapDevice user request now)) := by
    show (match findRequest db rid with
      | none => (AdminResult.notFound, db)
      | some request =>
        if request.status ≠ Status.pending then (AdminResult.alreadyProcessed, db)
        else
          let db1 := saveRequest db (approvedVersion request reviewer notes now)
          match findUser db1 request.userId with
          | none => (AdminResult.ok, db1)
          | some user => (AdminResult.ok, saveUser db1 (swapDevice user request now))) = _
    rw [hreq]
    show (if request.status ≠ Status.pending then (AdminResult.alreadyProcessed, db)
      else
        let db1 := saveRequest db (approvedVersion request reviewer notes now)
        match findUser db1 request.userId with
        | none => (AdminResult.ok, db1)
        | some user => (AdminResult.ok, saveUser db1 (swapDevice user request now))) = _
    rw [if_neg hnn]
    show (match findUser (saveRequest db (approvedVersion request reviewer notes now))
        request.userId with
      | none => (AdminResult.ok, saveRequest db (approvedVersion request reviewer notes now))
      | some user => (AdminResult.ok,
          saveUser (saveRequest db (approvedVersion request reviewer notes now))
            (swapDevice user request now))) = _
    rw [huser1]
  have hfindreq : findRequest
      (saveRequest db (approvedVersion request reviewer notes now)) rid =
      some (approvedVersion request reviewer notes now) :=
    findRequest_saveRequest db rid request (approvedVersion request reviewer notes now)
      hreq rfl
  have hswid : (swapDevice user request now).id = user.id := by
    unfold swapDevice
    rw [hcur]
  have huid : user.id = request.userId := by
    have hp := List.find?_some
      (show db.users.find? (fun v => v.id == request.userId) = some user from huser)
    simpa using hp
  have huserid : findUser db user.id = some user := by rw [huid]; exact huser
  have hfinduser : findUser
      (saveUser (saveRequest db (approvedVersion request reviewer notes now))
        (swapDevice user request now)) user.id =
      some (swapDevice user request now) :=
    findUser_saveUser (saveRequest db (approvedVersion request reviewer notes now))
      user.id user (swapDevice user request now) huserid hswid
  have hswdev : (swapDevice user request now).registeredDevices =
      user.registeredDevices.filter (fun d => !(d.deviceId == A)) ++
        [{ deviceId := request.newDeviceId
           deviceInfo := some request.newDeviceInfo
           registeredAt := now
           lastUsed := now }] := by
    unfold swapDevice
    rw [hcur]
  refine ⟨by rw [hroute], by rw [hroute]; exact hfindreq, rfl, rfl, rfl,
    by rw [hroute]; exact hfinduser, hswdev, rfl, ?_, ?_⟩
  · refine ⟨{ deviceId := request.newDeviceId
              deviceInfo := some request.newDeviceInfo
              registeredAt := now
              lastUsed := now }, ?_, rfl⟩
    rw [hswdev]
    simp
  · intro d hd
    rw [hswdev] at hd
    rcases List.mem_append.mp hd with hleft | hright
    · have hpred := (List.mem_filter.mp hleft).2
      intro hda
      rw [hda] at hpred
      simp at hpred
    · have : d = { deviceId := request.newDeviceId
                   deviceInfo := some request.newDeviceInfo
                   registeredAt := now
                   lastUsed := now } := by simpa using hright
      rw [this]
      exact fun hcontra => hAB hcontra.symm

/-- Witness for C2: approving `u1`'s pending request for `d2` evicts
`d1`, registers `d2` and repoints `currentDeviceId`. -/
theorem approve_swaps_device_witness :
    (approveRoute dbPending 1 "a1" (some "ok") 5).1 = AdminResult.ok ∧
    findRequest (approveRoute dbPending 1 "a1" (some "ok") 5).2 1 =
      some (approvedVersion pendingReq1 "a1" (some "ok") 5) ∧
    (approvedVersion pendingReq1 "a1" (some "ok") 5).status = Status.approved ∧
    (approvedVersion pendingReq1 "a1" (some "ok") 5).reviewedAt = some 5 ∧
    (approvedVersion pendingReq1 "a1" (some "ok") 5).reviewedBy = some "a1" ∧
    findUser (approveRoute dbPending 1 "a1" (some "ok") 5).2 user1.id =
      some (swapDevice user1 pendingReq1 5) ∧
    (swapDevice user1 pendingReq1 5).registeredDevices =
      user1.registeredDevices.filter (fun d => !(d.deviceId == "d1")) ++
        [{ deviceId := pendingReq1.newDeviceId
           deviceInfo := some pendingReq1.newDeviceInfo
           registeredAt := 5
           lastUsed := 5 }] ∧
    (swapDevice user1 pendingReq1 5).currentDeviceId = some pendingReq1.newDeviceId ∧
    (∃ d ∈ (swapDevice user1 pendingReq1 5).registeredDevices,
      d.deviceId = pendingReq1.newDeviceId) ∧
    (∀ d ∈ (swapDevice user1 pendingReq1 5).registeredDevices, d.deviceId ≠ "d1") :=
  approve_swaps_device dbPending 1 "a1" (some "ok") 5 pendingReq1 user1 "d1"
    (by decide) rfl (by decide) rfl (by decide)

/-- Claim C5: POST /request-device-change fails when the fingerprint's
deviceId is already registered for the user, fails when a pending
request already exists for the exact (user, newDeviceId) pair, and
otherwise persists exactly one new request with status pending and
requestedAt = now — in particular it succeeds again once every earlier
request for that pair is terminal (approved or rejected). -/
theorem create_request_lifecycle (hash : String → String) (db : Db)
    (user : User) (req : ReqSignals) (bodyReason : Option String)
    (newId : Nat) (now : Nat) :
    (user.isDeviceRegistered (generateDeviceFingerprint hash req user.id).deviceId = true →
      requestDeviceChangeRoute hash db user req bodyReason newId now =
        (CreateResult.deviceAlreadyRegistered, db)) ∧
    (user.isDeviceRegistered (generateDeviceFingerprint hash req user.id).deviceId = false →
     pendingExists db.requests user.id
        (generateDeviceFingerprint hash req user.id).deviceId = true →
      requestDeviceChangeRoute hash db user req bodyReason newId now =
        (CreateResult.pendingAlreadyExists, db)) ∧
    (user.isDeviceRegistered (generateDeviceFingerprint hash req user.id).deviceId = false →
     (∀ r ∈ db.requests, r.userId = user.id →
        r.newDeviceId = (generateDeviceFingerprint hash req user.id).deviceId →
        r.status ≠ Status.pending) →
      ∃ newReq,
        requestDeviceChangeRoute hash db user req bodyReason newId now =
          (CreateResult.created newReq,
            { db with requests := db.requests ++ [newReq] }) ∧
        newReq.status = Status.pending ∧
        newReq.requestedAt = now ∧
        newReq.userId = user.id ∧
        newReq.newDeviceId = (generateDeviceFingerprint hash req user.id).deviceId) := by
  refine ⟨fun h1 => ?_, fun h1 h2 => ?_, fun h1 hterm => ?_⟩
  · show (if user.isDeviceRegistered
        ((generateDeviceFingerprint hash req user.id).deviceId) then
        ((CreateResult.deviceAlreadyRegistered, db) : CreateResult × Db)
      else if pendingExists db.requests user.id
          ((generateDeviceFingerprint hash req user.id).deviceId) then
        (CreateResult.pendingAlreadyExists, db)
      else
        (CreateResult.created
          (newRequestDoc user req bodyReason newId now
            ((generateDeviceFingerprint hash req user.id).deviceId)),
         { db with requests := db.requests ++
            [newRequestDoc user req bodyReason newId now
              ((generateDeviceFingerprint hash req user.id).deviceId)] })) = _
    rw [if_pos h1]
  · have h1n : ¬ (user.isDeviceRegistered
        (generateDeviceFingerprint hash req user.id).deviceId = true) := by
      rw [h1]; intro hc; cases hc
    show (if user.isDeviceRegistered
        ((generateDeviceFingerprint hash req user.id).deviceId) then
        ((CreateResult.deviceAlreadyRegistered, db) : CreateResult × Db)
      else if pendingExists db.requests user.id
          ((generateDeviceFingerprint hash req user.id).deviceId) then
        (CreateResult.pendingAlreadyExists, db)
      else
        (CreateResult.created
          (newRequestDoc user req bodyReason newId now
            ((generateDeviceFingerprint hash req user.id).deviceId)),
         { db with requests := db.requests ++
            [newRequestDoc user req bodyReason newId now
              ((generateDeviceFingerprint hash req user.id).deviceId)] })) = _
    rw [if_neg h1n, if_pos h2]
  · have h1n : ¬ (user.isDeviceRegistered
        (generateDeviceFingerprint hash req user.id).deviceId = true) := by
      rw [h1]; intro hc; cases hc
    have hpe : pendingExists db.requests user.id
        (generateDeviceFingerprint hash req user.id).deviceId = false := by
      rw [pendingExists, List.any_eq_false]
      intro r hr hb
      rw [Bool.and_eq_true, Bool.and_eq_true] at hb
      obtain ⟨⟨hb1, hb2⟩, hb3⟩ := hb
      exact hterm r hr (by simpa using hb1) (by simpa using hb2) (by simpa using hb3)
    have hpen : ¬ (pendingExists db.requests user.id
        (generateDeviceFingerprint hash req user.id).deviceId = true) := by
      rw [hpe]; intro hc; cases hc
    refine ⟨newRequestDoc user req bodyReason newId now
      ((generateDeviceFingerprint hash req user.id).deviceId), ?_, rfl, rfl, rfl, rfl⟩
    show (if user.isDeviceRegistered
        ((generateDeviceFingerprint hash req user.id).deviceId) then
        ((CreateResult.deviceAlreadyRegistered, db) : CreateResult × Db)
      else if pendingExists db.requests user.id
          ((generateDeviceFingerprint hash req user.id).deviceId) then
        (CreateResult.pendingAlreadyExists, db)
      else
        (CreateResult.created
          (newRequestDoc user req bodyReason newId now
            ((generateDeviceFingerprint hash req user.id).deviceId)),
         { db with requests := db.requests ++
            [newRequestDoc user req bodyReason newId now
              ((generateDeviceFingerprint hash req user.id).deviceId)] })) = _
    rw [if_neg h1n, if_neg hpen]

/-- Witness for C5: with the fingerprint hashing to `d1` the create
call fails (device registered); with `d2` while a pending request for
(u1, d2) exists it fails with a conflict; with `d2` after that request
was approved it succeeds with a fresh pending request. -/
theorem create_request_lifecycle_witness :
    (requestDeviceChangeRoute (fun _ => "d1") dbPending user1 emptySignals none 7 8 =
      (CreateResult.deviceAlreadyRegistered, dbPending)) ∧
    (requestDeviceChangeRoute (fun _ => "d2") dbPending user1 emptySignals none 7 8 =
      (CreateResult.pendingAlreadyExists, dbPending)) ∧
    (∃ newReq,
      requestDeviceChangeRoute (fun _ => "d2") dbTerminal user1 emptySignals none 7 8 =
        (CreateResult.created newReq,
          { dbTerminal with requests := dbTerminal.requests ++ [newReq] }) ∧
      newReq.status = Status.pending ∧
      newReq.requestedAt = 8 ∧
      newReq.userId = user1.id ∧
      newReq.newDeviceId =
        (generateDeviceFingerprint (fun _ => "d2") emptySignals user1.id).deviceId) :=
  ⟨(create_request_lifecycle (fun _ => "d1") dbPending user1 emptySignals none 7 8).1
      (by decide),
   (create_request_lifecycle (fun _ => "d2") dbPending user1 emptySignals none 7 8).2.1
      (by decide) (by decide),
   (create_request_lifecycle (fun _ => "d2") dbTerminal user1 emptySignals none 7 8).2.2
      (by decide) (by decide)⟩

/-- A request carrying only the `X-Language` header. -/
def xLangOnlySignals : ReqSignals :=
  { emptySignals with xLanguage := some "fr-FR" }

/-- Counterexample for C9 as stated: with `X-Languages` (the languages
signal) absent, `accept-language` absent and `X-Language: fr-FR`, the
language attribute resolves to "fr-FR" through the `X-Language`
fallback while the languages attribute falls back to "en-US" — the
two differ, refuting "whenever the languages signal is absent, the
languages attribute equals the language attribute's value". -/
theorem languages_default_counterexample :
    xLangOnlySignals.xLanguages = none ∧
    (generateDeviceFingerprint (fun s => s) xLangOnlySignals "u1").stableFingerprint.language
      = "fr-FR" ∧
    (generateDeviceFingerprint (fun s => s) xLangOnlySignals "u1").stableFingerprint.languages
      = "en-US" ∧
    (generateDeviceFingerprint (fun s => s) xLangOnlySignals "u1").stableFingerprint.languages
      ≠ (generateDeviceFingerprint (fun s => s) xLangOnlySignals "u1").stableFingerprint.language := by
  refine ⟨rfl, rfl, rfl, ?_⟩
  decide

/-- Claim C9 (amended): every absent signal resolves to its documented
default — user-agent "", platform "Unknown", language "en-US",
screen resolution / color depth / hardware concurrency "unknown",
pixel ratio "1", max touch points "0", timezone "UTC" — and, with the
languages signal absent, the languages attribute equals the
accept-language value when present (else "en-US"); it equals the
language attribute except when language is supplied through the
`X-Language` fallback. -/
theorem signal_defaults (hash : String → String) (uid : String) (r : ReqSignals) :
    (generateDeviceFingerprint hash r uid).stableFingerprint = stableOf r ∧
    (r.userAgent = none → (stableOf r).userAgent = "") ∧
    (r.secChUaPlatform = none → r.xPlatform = none → (stableOf r).platform = "Unknown") ∧
    (r.acceptLanguage = none → r.xLanguage = none → (stableOf r).language = "en-US") ∧
    (r.xScreenResolution = none → (stableOf r).screenRes = "unknown") ∧
    (r.xColorDepth = none → (stableOf r).colorDepth = "unknown") ∧
    (r.xPixelRatio = none → StableFingerprint.pixelRatio (stableOf r) = "1") ∧
    (r.xHardwareConcurrency = none → (stableOf r).hardwareConcurrency = "unknown") ∧
    (r.xMaxTouchPoints = none → (stableOf r).maxTouchPoints = "0") ∧
    (r.xTimezone = none → (stableOf r).timezone = "UTC") ∧
    (r.xLanguages = none → (stableOf r).languages = jsOrStr r.acceptLanguage "en-US") ∧
    (r.xLanguages = none →
     (r.xLanguage = none ∨ ∃ s, r.acceptLanguage = some s ∧ s ≠ "") →
      (stableOf r).languages = (stableOf r).language) := by
  refine ⟨rfl, fun h => ?_, fun h1 h2 => ?_, fun h1 h2 => ?_, fun h => ?_, fun h => ?_,
    fun h => ?_, fun h => ?_, fun h => ?_, fun h => ?_, fun h => ?_, fun hxl hcase => ?_⟩
  · show jsOrStr r.userAgent "" = ""
    rw [h]
    rfl
  · show jsOrStr r.secChUaPlatform (jsOrStr r.xPlatform "Unknown") = "Unknown"
    rw [h1, h2]
    rfl
  · show jsOrStr r.acceptLanguage (jsOrStr r.xLanguage "en-US") = "en-US"
    rw [h1, h2]
    rfl
  · show jsOrStr r.xScreenResolution "unknown" = "unknown"
    rw [h]
    rfl
  · show jsOrStr r.xColorDepth "unknown" = "unknown"
    rw [h]
    rfl
  · show jsOrStr r.xPixelRatio "1" = "1"
    rw [h]
    rfl
  · show jsOrStr r.xHardwareConcurrency "unknown" = "unknown"
    rw [h]
    rfl
  · show jsOrStr r.xMaxTouchPoints "0" = "0"
    rw [h]
    rfl
  · show jsOrStr r.xTimezone "UTC" = "UTC"
    rw [h]
    rfl
  · show jsOrStr r.xLanguages (jsOrStr r.acceptLanguage "en-US") =
      jsOrStr r.acceptLanguage "en-US"
    rw [h]
    rfl
  · rcases hcase with hxlang | ⟨s, hs, hne⟩
    · show jsOrStr r.xLanguages (jsOrStr r.acceptLanguage "en-US") =
        jsOrStr r.acceptLanguage (jsOrStr r.xLanguage "en-US")
      rw [hxl, hxlang]
      rfl
    · show jsOrStr r.xLanguages (jsOrStr r.acceptLanguage "en-US") =
        jsOrStr r.acceptLanguage (jsOrStr r.xLanguage "en-US")
      rw [hxl, hs]
      show (if s = "" then "en-US" else s) =
        (if s = "" then jsOrStr r.xLanguage "en-US" else s)
      rw [if_neg hne, if_neg hne]

/-- Witness for C9 (amended): the bare request resolves every attribute
to its default, and its languages attribute coincides with its language
attribute. -/
theorem signal_defaults_witness :
    (stableOf emptySignals).userAgent = "" ∧
    (stableOf emptySignals).platform = "Unknown" ∧
    (stableOf emptySignals).language = "en-US" ∧
    (stableOf emptySignals).screenRes = "unknown" ∧
    (stableOf emptySignals).colorDepth = "unknown" ∧
    StableFingerprint.pixelRatio (stableOf emptySignals) = "1" ∧
    (stableOf emptySignals).hardwareConcurrency = "unknown" ∧
    (stableOf emptySignals).maxTouchPoints = "0" ∧
    (stableOf emptySignals).timezone = "UTC" ∧
    (stableOf emptySignals).languages = (stableOf emptySignals).language :=
  ⟨(signal_defaults (fun s => s) "u1" emptySignals).2.1 rfl,
   (signal_defaults (fun s => s) "u1" emptySignals).2.2.1 rfl rfl,
   (signal_defaults (fun s => s) "u1" emptySignals).2.2.2.1 rfl rfl,
   (signal_defaults (fun s => s) "u1" emptySignals).2.2.2.2.1 rfl,
   (signal_defaults (fun s => s) "u1" emptySignals).2.2.2.2.2.1 rfl,
   (signal_defaults (fun s => s) "u1" emptySignals).2.2.2.2.2.2.1 rfl,
   (signal_defaults (fun s => s) "u1" emptySignals).2.2.2.2.2.2.2.1 rfl,
   (signal_defaults (fun s => s) "u1" emptySignals).2.2.2.2.2.2.2.2.1 rfl,
   (signal_defaults (fun s => s) "u1" emptySignals).2.2.2.2.2.2.2.2.2.1 rfl,
   (signal_defaults (fun s => s) "u1" emptySignals).2.2.2.2.2.2.2.2.2.2.2 rfl
     (Or.inl rfl)⟩

end SingleDeviceAuth
